import Mathlib

/-!
Verification of the driver script src/run_ls.py of the randomized-LS-solvers
repository.  The script parses command-line options, validates the requested
configuration, creates a Spark context, loads the dataset, runs the randomized
least-squares solver, persists the result, and, in test mode, evaluates
relative errors against a reference solution.

The embedding below follows the source line by line: `parseArgs` models the
argparse declarations (lines 67-98), `validate` models the validation block
(lines 101-112), and `mainRun` models the whole of `main` as a sequence of
observable events together with the persisted result and the final outcome.
-/

namespace RunLS

/-- Failures of the driver.  `valueError` models the Python ValueError raised
by the validation block; the natural-language specification calls this
category ConfigurationError.  `argparseError` models argparse rejecting the
argument vector (missing required argument or invalid choice).  `nameError`
models a Python NameError, raised when an undefined variable is referenced.
`systemExit` models an explicit sys.exit call. -/
inductive RunError where
  | systemExit : Int → RunError
  | argparseError : String → RunError
  | valueError : String → RunError
  | nameError : String → RunError
deriving DecidableEq, Repr

/-- Observable events of a run of `main`, in program order: printing the
parameters (line 114), creating the Spark context (line 121), loading the
dataset from HDFS (line 124) or from local disc (lines 126-127), building the
RowMatrix (line 129), fitting the solver (lines 132-134), persisting the
result dictionary with pickle_write (lines 136-137), and the test phase
(lines 141-157): loading the reference-solution files, computing a fresh
reference solution, and computing the median relative errors. -/
inductive Event where
  | printParams
  | sparkContextCreate
  | loadDataHDFS
  | loadDataLocal
  | createRowMatrix
  | fit
  | persistResult
  | loadRefSolutionFiles
  | computeRefSolution
  | compRelErr
deriving DecidableEq, Repr

/-- The result dictionary written by pickle_write at lines 136-137 of
run_ls.py, with the key time bound to ls.time and the key x to ls.x. -/
structure PersistedResult where
  time : Int
  x : List Int
deriving DecidableEq, Repr

/-- The parsed argument namespace produced by parser.parse_args (line 98),
with the fields and defaults declared at lines 69-92. -/
structure Args where
  dataset : String
  m : Int
  n : Int
  nrepetitions : Int
  npartitions : Int
  cache : Bool
  file_source : String
  solver_type : String
  sketch_type : Option String
  projection_type : String
  r : Int
  s : Option Int
  q : Option Int
  k : Int
  test : Bool
  save_logs : Bool
  output_filename : String
  load_N : Bool
  save_N : Bool
  debug : Bool
deriving DecidableEq, Repr

/-- The raw argument vector, abstracted as which options were supplied and,
for valued options, with which value.  A field that is `none` means the
option is absent from argv.  The two mutually exclusive groups (lines 76-81)
are each modelled as a single optional value, which is exactly the set of
outcomes argparse accepts for them.  `printHelp` records whether
argv[0] = print_help (line 94). -/
structure RawArgs where
  printHelp : Bool
  dataset : Option String
  dims : Option (Int × Int)
  nrepetitions : Option Int
  npartitions : Option Int
  cache : Bool
  hdfs : Bool
  solver_flag : Option String
  sketch_flag : Option String
  projection_type : Option String
  r : Option Int
  s : Option Int
  q : Option Int
  k : Option Int
  test : Bool
  save_logs : Bool
  output_filename : Option String
  load_N : Bool
  save_N : Bool
  debug : Bool
deriving DecidableEq, Repr

/-- The choices of the -p option (line 82). -/
def projectionChoices : List String := ["cw", "gaussian", "rademacher", "srdht"]

/-- parser.parse_args (line 98) with the declarations of lines 69-92:
the positional `dataset`, the two-valued `--dims` and the option `-r` carry
required=True, so argparse rejects an argument vector missing any of them;
`-s` and `-q` have no default and parse to None when absent; `-p` must be one
of `projectionChoices` and defaults to gaussian; the remaining options have
the defaults written at their add_argument calls. -/
def parseArgs (raw : RawArgs) : Except RunError Args :=
  match raw.dataset with
  | none => Except.error (RunError.argparseError "the following arguments are required: dataset")
  | some dataset =>
    match raw.dims with
    | none => Except.error (RunError.argparseError "the following arguments are required: --dims")
    | some (m, n) =>
      match raw.r with
      | none => Except.error (RunError.argparseError "the following arguments are required: -r")
      | some r =>
        let ptype := raw.projection_type.getD "gaussian"
        if projectionChoices.contains ptype then
          Except.ok {
            dataset := dataset
            m := m
            n := n
            nrepetitions := raw.nrepetitions.getD 1
            npartitions := raw.npartitions.getD 280
            cache := raw.cache
            file_source := if raw.hdfs then "hdfs" else "local"
            solver_type := raw.solver_flag.getD "low_precision"
            sketch_type := raw.sketch_flag
            projection_type := ptype
            r := r
            s := raw.s
            q := raw.q
            k := raw.k.getD 1
            test := raw.test
            save_logs := raw.save_logs
            output_filename := raw.output_filename.getD "ls.out"
            load_N := raw.load_N
            save_N := raw.save_N
            debug := raw.debug }
        else
          Except.error (RunError.argparseError "argument -p: invalid choice")

/-- The validation checks after the dimension check: lines 105-112 of
run_ls.py, in source order. -/
def validateAfterDims (args : Args) : Except RunError Unit :=
  if args.sketch_type = some "sampling" ∧ args.s = none then
    Except.error (RunError.valueError "Please enter a sampling size!")
  else if args.solver_type = "high_precision" ∧ args.q = none then
    Except.error (RunError.valueError "Please enter number of iterations!")
  else if args.solver_type = "low_precision" ∧ args.sketch_type = none then
    Except.error (RunError.valueError "Please specify a sketch method for the low-precision solver!")
  else Except.ok ()

/-- The validation block of main, lines 101-112 of run_ls.py: the dimension
check of lines 102-103 followed by `validateAfterDims`. -/
def validate (args : Args) : Except RunError Unit :=
  if args.m < args.n then
    Except.error (RunError.valueError "Number of rows should be greater than number of columns")
  else validateAfterDims args

/-- The environment a run executes in: whether the precomputed
reference-solution file dataset_x_opt.txt exists (line 142), and the
abstract numeric results produced by the solver and the error evaluation
(ls.time, ls.x, and the two median relative errors). -/
structure Env where
  xOptFileExists : Bool
  lsTime : Int
  lsX : List Int
  relerrX : Int
  relerrF : Int
deriving DecidableEq, Repr

deriving instance DecidableEq for Except

/-- The outcome of a run of main: the ordered trace of observable events,
the result dictionary persisted by pickle_write (none when the run fails
before line 137), and either an uncaught exception or, on success, the pair
of median relative errors when they were computed. -/
structure RunResult where
  trace : List Event
  persisted : Option PersistedResult
  outcome : Except RunError (Option (Int × Int))
deriving DecidableEq, Repr

/-- The events of the solve phase, lines 114-137 of run_ls.py, executed once
validation has passed: print the parameters, create the Spark context, load
the dataset from the configured source, build the RowMatrix, fit the solver,
and persist the result.  The trace ends with the persist event. -/
def solvePhaseTrace (args : Args) : List Event :=
  [Event.printParams, Event.sparkContextCreate,
   if args.file_source = "hdfs" then Event.loadDataHDFS else Event.loadDataLocal,
   Event.createRowMatrix, Event.fit, Event.persistResult]

/-- The function main of run_ls.py (lines 58-157) as a whole.  After the
print_help escape (lines 94-96), the arguments are parsed (line 98) and
validated (lines 101-112); any failure there aborts the run before any event
of the solve phase.  Otherwise the solve phase runs and persists the result,
and then, in test mode (lines 141-157), the reference solution is obtained:
when the precomputed file exists, lines 144-145 evaluate loadtxt on
dire + args.dataset, but the name dire is never defined anywhere in main
(only data_dire, hdfs_dire and logs_dire are, lines 60-62), so Python raises
NameError there; when the file does not exist, a fresh reference solution is
computed from the collected matrix and the median relative errors are
computed by comp_relerr. -/
def mainRun (raw : RawArgs) (env : Env) : RunResult :=
  if raw.printHelp then ⟨[], none, Except.error (RunError.systemExit 1)⟩
  else
    match parseArgs raw with
    | Except.error e => ⟨[], none, Except.error e⟩
    | Except.ok args =>
      match validate args with
      | Except.error e => ⟨[], none, Except.error e⟩
      | Except.ok _ =>
        let persisted : Option PersistedResult := some ⟨env.lsTime, env.lsX⟩
        if args.test then
          if env.xOptFileExists then
            ⟨solvePhaseTrace args ++ [Event.loadRefSolutionFiles], persisted,
              Except.error (RunError.nameError "name dire is not defined")⟩
          else
            ⟨solvePhaseTrace args ++ [Event.computeRefSolution, Event.compRelErr], persisted,
              Except.ok (some (env.relerrX, env.relerrF))⟩
        else
          ⟨solvePhaseTrace args, persisted, Except.ok none⟩

/-- A baseline argument vector: dataset nmf, dims 1000 by 10, projection
sketch with r = 200, default (low-precision) solver, five trials. -/
def rawBase : RawArgs := {
  printHelp := false
  dataset := some "nmf"
  dims := some (1000, 10)
  nrepetitions := none
  npartitions := none
  cache := false
  hdfs := false
  solver_flag := none
  sketch_flag := some "projection"
  projection_type := none
  r := some 200
  s := none
  q := none
  k := some 5
  test := false
  save_logs := false
  output_filename := none
  load_N := false
  save_N := false
  debug := false }

/-- The baseline vector with dims 100 by 10 and projection size r = 5,
smaller than n + 1 = 11. -/
def rawSmallR : RawArgs := { rawBase with dims := some (100, 10), r := some 5 }

/-- The baseline vector without the required option -r. -/
def rawNoR : RawArgs := { rawBase with r := none }

/-- The baseline vector with dims 5 by 10, violating m ≥ n. -/
def rawBadDims : RawArgs := { rawBase with dims := some (5, 10) }

/-- The baseline vector with the test flag -t set. -/
def rawTest : RawArgs := { rawBase with test := true }

/-- The parsed namespace of `rawBase`. -/
def argsBase : Args := {
  dataset := "nmf"
  m := 1000
  n := 10
  nrepetitions := 1
  npartitions := 280
  cache := false
  file_source := "local"
  solver_type := "low_precision"
  sketch_type := some "projection"
  projection_type := "gaussian"
  r := 200
  s := none
  q := none
  k := 5
  test := false
  save_logs := false
  output_filename := "ls.out"
  load_N := false
  save_N := false
  debug := false }

/-- The parsed namespace of `rawBadDims`: 5 rows, 10 columns. -/
def argsBadDims : Args := { argsBase with m := 5 }

/-- A parsed namespace with the high-precision solver and n_iters = 0. -/
def argsHighQ0 : Args := { argsBase with solver_type := "high_precision", q := some 0 }

/-- A parsed namespace with the high-precision solver and n_iters supplied. -/
def argsHighQ5 : Args := { argsBase with solver_type := "high_precision", q := some 5 }

/-- A parsed namespace with a sampling sketch and no sampling size. -/
def argsSamplingNoS : Args := { argsBase with sketch_type := some "sampling" }

/-- A parsed namespace with the low-precision solver and no sketch method. -/
def argsNoSketch : Args := { argsBase with sketch_type := none }

/-- An environment without a precomputed reference-solution file. -/
def env0 : Env := {
  xOptFileExists := false
  lsTime := 7
  lsX := [1, 2]
  relerrX := 3
  relerrF := 4 }

/-- An environment where the precomputed reference-solution file exists. -/
def envFound : Env := { env0 with xOptFileExists := true }

/-- The parsed namespace of `rawSmallR`: 100 rows, 10 columns, r = 5. -/
def argsSmallR : Args := { argsBase with m := 100, r := 5 }

/-- A parsed namespace with the high-precision solver and n_iters unset. -/
def argsHighNoQ : Args := { argsBase with solver_type := "high_precision" }

/-- The parsed namespace of `rawTest`: the baseline plus the test flag. -/
def argsTest : Args := { argsBase with test := true }

/-- When argv starts with print_help, main prints the help text and exits
with status 1 before parsing (lines 94-96). -/
theorem mainRun_printHelp (raw : RawArgs) (env : Env) (hp : raw.printHelp = true) :
    mainRun raw env = ⟨[], none, Except.error (RunError.systemExit 1)⟩ := by
  simp [mainRun, hp]

/-- When argparse rejects the argument vector, main stops there: nothing is
validated, no event happens. -/
theorem mainRun_parseError (raw : RawArgs) (env : Env) (e : RunError)
    (hp : raw.printHelp = false) (hparse : parseArgs raw = Except.error e) :
    mainRun raw env = ⟨[], none, Except.error e⟩ := by
  simp [mainRun, hp, hparse]

/-- When a validation check fails, main raises there: no event happens and
nothing is persisted. -/
theorem mainRun_valError (raw : RawArgs) (env : Env) (args : Args) (e : RunError)
    (hp : raw.printHelp = false) (hparse : parseArgs raw = Except.ok args)
    (hval : validate args = Except.error e) :
    mainRun raw env = ⟨[], none, Except.error e⟩ := by
  simp [mainRun, hp, hparse, hval]

/-- Characterization of main once parsing and validation have passed: the
solve phase runs and persists its result, and the test phase follows the
test flag and the presence of the precomputed reference-solution file. -/
theorem mainRun_ok (raw : RawArgs) (env : Env) (args : Args)
    (hp : raw.printHelp = false) (hparse : parseArgs raw = Except.ok args)
    (hval : validate args = Except.ok ()) :
    mainRun raw env =
      if args.test then
        if env.xOptFileExists then
          ⟨solvePhaseTrace args ++ [Event.loadRefSolutionFiles],
            some ⟨env.lsTime, env.lsX⟩,
            Except.error (RunError.nameError "name dire is not defined")⟩
        else
          ⟨solvePhaseTrace args ++ [Event.computeRefSolution, Event.compRelErr],
            some ⟨env.lsTime, env.lsX⟩,
            Except.ok (some (env.relerrX, env.relerrF))⟩
      else
        ⟨solvePhaseTrace args, some ⟨env.lsTime, env.lsX⟩, Except.ok none⟩ := by
  simp [mainRun, hp, hparse, hval]

/-- The Spark context creation belongs to every solve-phase trace. -/
theorem spark_mem_solvePhaseTrace (args : Args) :
    Event.sparkContextCreate ∈ solvePhaseTrace args := by
  unfold solvePhaseTrace
  simp

/-- A data-loading event belongs to every solve-phase trace. -/
theorem load_mem_solvePhaseTrace (args : Args) :
    Event.loadDataHDFS ∈ solvePhaseTrace args ∨
    Event.loadDataLocal ∈ solvePhaseTrace args := by
  unfold solvePhaseTrace
  split
  · left; simp
  · right; simp

/-- The solve-phase trace ends with the persist event. -/
theorem solvePhaseTrace_getLast (args : Args) :
    (solvePhaseTrace args).getLast? = some Event.persistResult := by
  unfold solvePhaseTrace
  split <;> rfl

/-- Claim C1 is false on the code: with dims 100 by 10 (so n + 1 = 11) and
projection size r = 5 < 11, the run does not fail with a configuration error
before distributed computation; validation passes, the Spark context is
created, the data is loaded, and the run completes without any error. -/
theorem C1_counterexample :
    argsSmallR.r < argsSmallR.n + 1 ∧
    parseArgs rawSmallR = Except.ok argsSmallR ∧
    validate argsSmallR = Except.ok () ∧
    Event.sparkContextCreate ∈ (mainRun rawSmallR env0).trace ∧
    Event.loadDataLocal ∈ (mainRun rawSmallR env0).trace ∧
    (mainRun rawSmallR env0).outcome = Except.ok none := by decide

/-- Claim C1, amended: the driver validation of run_ls.py (lines 101-112)
never compares r or s against n + 1; a configuration with r smaller than
n + 1 that passes the four driver checks proceeds to Spark context creation
and data loading, and the validation outcome does not depend on r at all. -/
theorem C1_no_size_check (raw : RawArgs) (env : Env) (args : Args)
    (hp : raw.printHelp = false)
    (hparse : parseArgs raw = Except.ok args)
    (hval : validate args = Except.ok ())
    (hr : args.r < args.n + 1) :
    Event.sparkContextCreate ∈ (mainRun raw env).trace ∧
    (Event.loadDataHDFS ∈ (mainRun raw env).trace ∨
     Event.loadDataLocal ∈ (mainRun raw env).trace) ∧
    (∀ rv : Int, validate { args with r := rv } = validate args) := by
  rw [mainRun_ok raw env args hp hparse hval]
  refine ⟨?_, ?_, fun rv => rfl⟩
  · cases ht : args.test <;> cases hf : env.xOptFileExists <;>
      simp [spark_mem_solvePhaseTrace]
  · rcases load_mem_solvePhaseTrace args with h | h
    · left
      cases ht : args.test <;> cases hf : env.xOptFileExists <;> simp [h]
    · right
      cases ht : args.test <;> cases hf : env.xOptFileExists <;> simp [h]

/-- Witness for `C1_no_size_check` at the concrete run `rawSmallR`. -/
theorem C1_no_size_check_witness :
    argsSmallR.r < argsSmallR.n + 1 ∧
    Event.sparkContextCreate ∈ (mainRun rawSmallR env0).trace :=
  ⟨by decide,
    (C1_no_size_check rawSmallR env0 argsSmallR (by decide) (by decide)
      (by decide) (by decide)).1⟩

/-- Claim C2, code bug at lines 144-145 of run_ls.py: in test mode, when the
precomputed file dataset_x_opt.txt exists, the reference solution is loaded
with loadtxt(dire + ...), but the name dire is never defined in main (only
data_dire, hdfs_dire and logs_dire are, lines 60-62), so the run aborts with
a NameError instead of loading the files; in the not-found case the fallback
computes the reference solution fresh and the run completes with the median
relative errors, as the claim states. -/
theorem C2_reference_solution :
    (mainRun rawTest envFound).outcome =
      Except.error (RunError.nameError "name dire is not defined") ∧
    Event.loadRefSolutionFiles ∈ (mainRun rawTest envFound).trace ∧
    (mainRun rawTest env0).outcome =
      Except.ok (some (env0.relerrX, env0.relerrF)) ∧
    Event.computeRefSolution ∈ (mainRun rawTest env0).trace ∧
    Event.compRelErr ∈ (mainRun rawTest env0).trace := by decide

/-- Claim C3: every configuration error is raised eagerly, before any
distributed work: when a validation check fails, the trace of the run is
empty, so in particular no Spark context is created and no dataset row is
loaded, and the error is surfaced to the caller as the outcome. -/
theorem C3_validation_eager (raw : RawArgs) (env : Env) (args : Args)
    (e : RunError)
    (hp : raw.printHelp = false)
    (hparse : parseArgs raw = Except.ok args)
    (hval : validate args = Except.error e) :
    (mainRun raw env).trace = [] ∧
    (mainRun raw env).outcome = Except.error e := by
  rw [mainRun_valError raw env args e hp hparse hval]
  exact ⟨rfl, rfl⟩

/-- Witness for `C3_validation_eager` at the concrete run `rawBadDims`. -/
theorem C3_validation_eager_witness :
    (mainRun rawBadDims env0).trace = [] ∧
    (mainRun rawBadDims env0).outcome =
      Except.error (RunError.valueError
        "Number of rows should be greater than number of columns") :=
  C3_validation_eager rawBadDims env0 argsBadDims
    (RunError.valueError "Number of rows should be greater than number of columns")
    (by decide) (by decide) (by decide)

/-- Claim C4: an input with declared dimensions m < n fails the dimension
check of lines 102-103 with an error, and for m ≥ n (m = n included, the
source comparison being strict) the dimension check passes and validation
continues with the remaining checks. -/
theorem C4_dimension_check (args : Args) :
    (args.m < args.n →
      validate args = Except.error (RunError.valueError
        "Number of rows should be greater than number of columns")) ∧
    (args.n ≤ args.m → validate args = validateAfterDims args) := by
  constructor
  · intro h
    simp [validate, h]
  · intro h
    simp [validate, not_lt.mpr h]

/-- Witness for `C4_dimension_check`: the check fails at 5 by 10 and passes
at 1000 by 10. -/
theorem C4_dimension_check_witness :
    validate argsBadDims = Except.error (RunError.valueError
      "Number of rows should be greater than number of columns") ∧
    validate argsBase = validateAfterDims argsBase :=
  ⟨(C4_dimension_check argsBadDims).1 (by decide),
   (C4_dimension_check argsBase).2 (by decide)⟩

/-- Claim C5 is false on the code: a configuration with solver_type
high_precision and n_iters = 0 (specified but not positive) passes the whole
validation, because line 108 of run_ls.py only tests whether q is None and
never its sign. -/
theorem C5_counterexample :
    argsHighQ0.solver_type = "high_precision" ∧
    argsHighQ0.q = some 0 ∧
    validate argsHighQ0 = Except.ok () := by decide

/-- Claim C5, amended: with solver_type high_precision and the earlier
checks passing, validation fails iff the iteration count is unset; any
supplied value, zero and negative values included, passes validation. -/
theorem C5_niters_presence_only (args : Args)
    (hsolver : args.solver_type = "high_precision")
    (hdims : args.n ≤ args.m)
    (hsamp : ¬(args.sketch_type = some "sampling" ∧ args.s = none)) :
    (args.q = none →
      validate args = Except.error (RunError.valueError
        "Please enter number of iterations!")) ∧
    (args.q ≠ none → validate args = Except.ok ()) := by
  constructor <;> intro hq <;>
    simp [validate, validateAfterDims, not_lt.mpr hdims, hsamp, hsolver, hq]

/-- Witness for `C5_niters_presence_only`: q unset fails, q = 5 passes. -/
theorem C5_niters_presence_only_witness :
    validate argsHighNoQ = Except.error (RunError.valueError
      "Please enter number of iterations!") ∧
    validate argsHighQ5 = Except.ok () :=
  ⟨(C5_niters_presence_only argsHighNoQ (by decide) (by decide) (by decide)).1
      (by decide),
   (C5_niters_presence_only argsHighQ5 (by decide) (by decide) (by decide)).2
      (by decide)⟩

/-- Claim C6: with solver_type low_precision and the earlier checks passing,
validation fails iff no sketch method was selected (line 111 of run_ls.py);
with a sketch method selected, validation passes. -/
theorem C6_low_precision_requires_sketch (args : Args)
    (hsolver : args.solver_type = "low_precision")
    (hdims : args.n ≤ args.m)
    (hsamp : ¬(args.sketch_type = some "sampling" ∧ args.s = none)) :
    (args.sketch_type = none →
      validate args = Except.error (RunError.valueError
        "Please specify a sketch method for the low-precision solver!")) ∧
    (args.sketch_type ≠ none → validate args = Except.ok ()) := by
  constructor <;> intro hs <;>
    simp [validate, validateAfterDims, not_lt.mpr hdims, hsamp, hsolver, hs]

/-- Witness for `C6_low_precision_requires_sketch`: no sketch fails,
projection sketch passes. -/
theorem C6_low_precision_requires_sketch_witness :
    validate argsNoSketch = Except.error (RunError.valueError
      "Please specify a sketch method for the low-precision solver!") ∧
    validate argsBase = Except.ok () :=
  ⟨(C6_low_precision_requires_sketch argsNoSketch (by decide) (by decide)
      (by decide)).1 (by decide),
   (C6_low_precision_requires_sketch argsBase (by decide) (by decide)
      (by decide)).2 (by decide)⟩

/-- Claim C7: with sketch_type sampling and no sampling size supplied,
validation fails with the sampling-size error (lines 105-106 of run_ls.py);
with sketch_type projection or unset, the validation outcome does not depend
on s at all, so a missing s causes no validation failure. -/
theorem C7_sampling_size_required (args : Args) :
    (args.n ≤ args.m → args.sketch_type = some "sampling" → args.s = none →
      validate args = Except.error (RunError.valueError
        "Please enter a sampling size!")) ∧
    (args.sketch_type ≠ some "sampling" → ∀ s₁ s₂ : Option Int,
      validate { args with s := s₁ } = validate { args with s := s₂ }) := by
  constructor
  · intro hdims hsk hs
    simp [validate, validateAfterDims, not_lt.mpr hdims, hsk, hs]
  · intro hsk s₁ s₂
    simp [validate, validateAfterDims, hsk]

/-- Witness for `C7_sampling_size_required`: a sampling sketch without s
fails; for the projection baseline the outcome ignores s. -/
theorem C7_sampling_size_required_witness :
    validate argsSamplingNoS = Except.error (RunError.valueError
      "Please enter a sampling size!") ∧
    validate { argsBase with s := none } = validate { argsBase with s := some 300 } :=
  ⟨(C7_sampling_size_required argsSamplingNoS).1 (by decide) (by decide) (by decide),
   (C7_sampling_size_required argsBase).2 (by decide) none (some 300)⟩

/-- Claim C8: on every successful run the persisted result dictionary holds
the total elapsed time and the solution vectors (lines 136-137 of run_ls.py),
and the outcome carries the pair of median relative errors iff the test flag
was requested. -/
theorem C8_output_contract (raw : RawArgs) (env : Env) (args : Args)
    (out : Option (Int × Int))
    (hparse : parseArgs raw = Except.ok args)
    (hok : (mainRun raw env).outcome = Except.ok out) :
    (mainRun raw env).persisted = some ⟨env.lsTime, env.lsX⟩ ∧
    (out.isSome ↔ args.test = true) := by
  cases hp : raw.printHelp with
  | true =>
    rw [mainRun_printHelp raw env hp] at hok
    simp at hok
  | false =>
    cases hval : validate args with
    | error e =>
      rw [mainRun_valError raw env args e hp hparse hval] at hok
      simp at hok
    | ok u =>
      cases u
      rw [mainRun_ok raw env args hp hparse hval] at hok ⊢
      cases ht : args.test with
      | false =>
        simp [ht] at hok
        subst hok
        simp
      | true =>
        cases hf : env.xOptFileExists with
        | true => simp [ht, hf] at hok
        | false =>
          simp [ht, hf] at hok
          subst hok
          simp

/-- Witness for `C8_output_contract` at the concrete run `rawBase`. -/
theorem C8_output_contract_witness :
    (mainRun rawBase env0).persisted = some ⟨env0.lsTime, env0.lsX⟩ ∧
    ((none : Option (Int × Int)).isSome ↔ argsBase.test = true) :=
  C8_output_contract rawBase env0 argsBase none (by decide) (by decide)

/-- Claim C9: once validation has passed, the solve result is persisted and
the persist event closes the solve-phase trace, before any test-phase event;
this holds for every environment, in particular when the test phase aborts
while obtaining the reference solution, so a test-phase failure never loses
the already-computed solve results. -/
theorem C9_persist_before_test (raw : RawArgs) (env : Env) (args : Args)
    (hp : raw.printHelp = false)
    (hparse : parseArgs raw = Except.ok args)
    (hval : validate args = Except.ok ()) :
    (mainRun raw env).persisted = some ⟨env.lsTime, env.lsX⟩ ∧
    (∃ rest : List Event,
      (mainRun raw env).trace = solvePhaseTrace args ++ rest ∧
      ∀ e ∈ rest, e = Event.loadRefSolutionFiles ∨
        e = Event.computeRefSolution ∨ e = Event.compRelErr) ∧
    (solvePhaseTrace args).getLast? = some Event.persistResult := by
  rw [mainRun_ok raw env args hp hparse hval]
  cases ht : args.test with
  | false =>
    exact ⟨by simp, ⟨[], by simp, by simp⟩, solvePhaseTrace_getLast args⟩
  | true =>
    cases hf : env.xOptFileExists with
    | true =>
      exact ⟨by simp [hf], ⟨[Event.loadRefSolutionFiles], by simp [hf], by simp⟩,
        solvePhaseTrace_getLast args⟩
    | false =>
      exact ⟨by simp [hf],
        ⟨[Event.computeRefSolution, Event.compRelErr], by simp [hf], by simp⟩,
        solvePhaseTrace_getLast args⟩

/-- Witness for `C9_persist_before_test` at the run `rawTest` in the
environment `envFound`, where the test phase aborts with the NameError: the
solve result is persisted nevertheless. -/
theorem C9_persist_before_test_witness :
    (mainRun rawTest envFound).persisted =
      some ⟨envFound.lsTime, envFound.lsX⟩ :=
  (C9_persist_before_test rawTest envFound argsTest (by decide) (by decide)
    (by decide)).1

/-- Claim C10: the option -r carries required=True (line 83 of run_ls.py)
while -s and -q do not (lines 84-85): an argument vector without r is
rejected by argparse before validation, with an empty trace, and an argument
vector with r parses successfully with s and q taken verbatim, absent values
included. -/
theorem C10_required_r (raw : RawArgs) (env : Env) (d : String) (m n : Int)
    (hp : raw.printHelp = false)
    (hd : raw.dataset = some d)
    (hdims : raw.dims = some (m, n)) :
    (raw.r = none →
      (mainRun raw env).trace = [] ∧
      (mainRun raw env).outcome =
        Except.error (RunError.argparseError
          "the following arguments are required: -r")) ∧
    (∀ rv : Int, raw.r = some rv → raw.projection_type = none →
      ∃ args : Args, parseArgs raw = Except.ok args ∧
        args.s = raw.s ∧ args.q = raw.q ∧ args.r = rv) := by
  constructor
  · intro hr
    have hparse : parseArgs raw =
        Except.error (RunError.argparseError
          "the following arguments are required: -r") := by
      simp [parseArgs, hd, hdims, hr]
    rw [mainRun_parseError raw env _ hp hparse]
    exact ⟨rfl, rfl⟩
  · intro rv hr hpt
    have hparse : parseArgs raw = Except.ok {
        dataset := d
        m := m
        n := n
        nrepetitions := raw.nrepetitions.getD 1
        npartitions := raw.npartitions.getD 280
        cache := raw.cache
        file_source := if raw.hdfs then "hdfs" else "local"
        solver_type := raw.solver_flag.getD "low_precision"
        sketch_type := raw.sketch_flag
        projection_type := "gaussian"
        r := rv
        s := raw.s
        q := raw.q
        k := raw.k.getD 1
        test := raw.test
        save_logs := raw.save_logs
        output_filename := raw.output_filename.getD "ls.out"
        load_N := raw.load_N
        save_N := raw.save_N
        debug := raw.debug } := by
      simp [parseArgs, hd, hdims, hr, hpt, projectionChoices]
    exact ⟨_, hparse, rfl, rfl, rfl⟩

/-- Witness for `C10_required_r`: the baseline vector without -r is rejected
before validation, and the baseline vector itself parses with s and q both
absent. -/
theorem C10_required_r_witness :
    ((mainRun rawNoR env0).trace = [] ∧
      (mainRun rawNoR env0).outcome =
        Except.error (RunError.argparseError
          "the following arguments are required: -r")) ∧
    (∃ args : Args, parseArgs rawBase = Except.ok args ∧
      args.s = rawBase.s ∧ args.q = rawBase.q ∧ args.r = 200) :=
  ⟨(C10_required_r rawNoR env0 "nmf" 1000 10 (by decide) (by decide)
      (by decide)).1 (by decide),
   (C10_required_r rawBase env0 "nmf" 1000 10 (by decide) (by decide)
      (by decide)).2 200 (by decide) (by decide)⟩

end RunLS
